import Mathlib

/-!
Verification of the task-hierarchy validation and mutation rules of the
AI-TodoList task API.

The Lean definitions below are a shallow embedding of the TypeScript request
handlers and their helpers:

* `validateId`, `validateUpdateRequest`, `getTaskHandler`, `patchHandler`,
  `deleteHandler` embed `src/pages/api/tasks/[id].ts`;
* `validateCreateRequest` embeds the create-payload validator of the
  `/api/tasks` route;
* `jsonParse`, `firstBracketMatch`, `lineHeuristic`, `parseChain` and
  `breakdownFromResponse` embed the layered reply parser and the final
  counting/insertion stage of the `/api/tasks/breakdown` route (everything
  after the external model call; the model call itself is the opaque external
  collaborator and is represented by the raw reply string).

The external relational store is modelled as a list of rows; a call that the
external store may fail independently of the data (a network/database error)
is represented by an explicit boolean flag where a claim depends on it.
JavaScript's dynamically typed request fields are modelled by `JsValue`;
string lengths use Lean's codepoint length, which agrees with JavaScript's
UTF-16 length on the inputs at issue.
-/

namespace TodoApi

/-- Task status enum, from `types/task.ts` (`'pending' | 'completed'`). -/
inductive TaskStatus
  | pending
  | completed
deriving DecidableEq, Repr

/-- Task priority enum, from `types/task.ts` (`'low' | 'medium' | 'high'`). -/
inductive TaskPriority
  | low
  | medium
  | high
deriving DecidableEq, Repr

/-- A row of the `tasks` table, from `types/task.ts` / `supabase-schema.sql`.
`created_at` is modelled as a natural-number timestamp. -/
structure Task where
  id : Int
  title : String
  description : Option String
  status : TaskStatus
  priority : TaskPriority
  parent_id : Option Int
  created_at : Nat
deriving DecidableEq, Repr

/-- A dynamically typed JavaScript value as it can appear in a request body
field.  `int n` is a number that is an integer, `numNonInt` a number that is
not (`Number.isInteger` false); `other` covers values that are neither
strings nor numbers nor `null` (booleans, objects, arrays), for which the
validators only inspect `typeof`. -/
inductive JsValue
  | null
  | str (s : String)
  | int (n : Int)
  | numNonInt
  | other
deriving DecidableEq, Repr

/-- Whether a `JsValue` is a number with `Number.isInteger` true. -/
def JsValue.isInt : JsValue → Bool
  | .int _ => true
  | _ => false

/-- The JSON response envelope `{ success, data, error }` together with the
HTTP status code it is sent with. -/
structure ApiResp (α : Type) where
  status : Nat
  success : Bool
  data : Option α
  error : Option String
deriving DecidableEq, Repr

/-- The `id` entry of `req.query` in Next.js: absent, a single string, or an
array of strings. -/
inductive IdParam
  | missing
  | str (s : String)
  | arr (ss : List String)
deriving DecidableEq, Repr

/-- Whitespace skipped by JavaScript's `parseInt` and matched by `\s`
(the ASCII part, which covers the inputs at issue). -/
def jsWs (c : Char) : Bool :=
  c = ' ' ∨ c = '\t' ∨ c = '\n' ∨ c = '\r' ∨ c = '\x0b' ∨ c = '\x0c'

/-- JavaScript's `String.prototype.trim`: strip leading and trailing
whitespace (the ASCII whitespace set, which covers the inputs at issue). -/
def jsTrim (s : String) : String :=
  ⟨((s.data.dropWhile jsWs).reverse.dropWhile jsWs).reverse⟩

/-- Numeric value of a hexadecimal digit. -/
def hexVal (c : Char) : Option Nat :=
  if '0' ≤ c ∧ c ≤ '9' then some (c.toNat - '0'.toNat)
  else if 'a' ≤ c ∧ c ≤ 'f' then some (c.toNat - 'a'.toNat + 10)
  else if 'A' ≤ c ∧ c ≤ 'F' then some (c.toNat - 'A'.toNat + 10)
  else none

/-- Value of a list of decimal digits. -/
def decDigitsVal (ds : List Char) : Nat :=
  ds.foldl (fun acc c => acc * 10 + (c.toNat - '0'.toNat)) 0

/-- Value of a list of hexadecimal digits. -/
def hexDigitsVal (ds : List Char) : Nat :=
  ds.foldl (fun acc c => acc * 16 + ((hexVal c).getD 0)) 0

/-- Whether a character is an ASCII hexadecimal digit. -/
def isHexDigitChar (c : Char) : Bool :=
  c.isDigit ∨ ('a' ≤ c ∧ c ≤ 'f') ∨ ('A' ≤ c ∧ c ≤ 'F')

/-- JavaScript's `parseInt(s)` with no radix argument: skip leading
whitespace, optional sign, `0x`/`0X` prefix selects base 16, then the maximal
digit prefix; `none` models `NaN` (no digits). -/
def parseIntJS (s : String) : Option Int :=
  let cs := s.data.dropWhile jsWs
  let signNeg : Bool := match cs with
    | '-' :: _ => true
    | _ => false
  let cs1 := match cs with
    | '-' :: r => r
    | '+' :: r => r
    | _ => cs
  let (digits, base) : List Char × Nat := match cs1 with
    | '0' :: x :: r =>
        if x = 'x' ∨ x = 'X' then (r.takeWhile isHexDigitChar, 16)
        else (cs1.takeWhile Char.isDigit, 10)
    | _ => (cs1.takeWhile Char.isDigit, 10)
  if digits = [] then none
  else
    let v : Int := if base = 16 then (hexDigitsVal digits : Int) else (decDigitsVal digits : Int)
    some (if signNeg then -v else v)

/-- `validateId` from `pages/api/tasks/[id].ts`: rejects a missing or empty
or array-valued `id`, then `parseInt`s it and rejects `NaN` and values
`<= 0`. -/
def validateId : IdParam → Option Int
  | .missing => none
  | .arr _ => none
  | .str s =>
      if s = "" then none
      else match parseIntJS s with
        | none => none
        | some n => if n ≤ 0 then none else some n

/-- A create request body (`CreateTaskRequest`): each field either absent
(`none`) or some JavaScript value. -/
structure CreateTaskRequest where
  title : Option JsValue := none
  description : Option JsValue := none
  status : Option JsValue := none
  priority : Option JsValue := none
  parent_id : Option JsValue := none
deriving DecidableEq, Repr

/-- An update request body (`UpdateTaskRequest`): same shape, all fields
optional. -/
structure UpdateTaskRequest where
  title : Option JsValue := none
  description : Option JsValue := none
  status : Option JsValue := none
  priority : Option JsValue := none
  parent_id : Option JsValue := none
deriving DecidableEq, Repr

/-- The `updateData` object assembled by `validateUpdateRequest`: for each
field, `none` means the key was not set.  For `description` and `parent_id`
the inner `Option` is the stored value (`none` = SQL `null`). -/
structure UpdateData where
  title : Option String := none
  description : Option (Option String) := none
  status : Option TaskStatus := none
  priority : Option TaskPriority := none
  parent_id : Option (Option Int) := none
deriving DecidableEq, Repr

/-- The `title` branch of `validateUpdateRequest`. -/
def updTitle : Option JsValue → List String × Option String
  | none => ([], none)
  | some (.str s) =>
      if (jsTrim s).length = 0 then (["title 不能为空"], none)
      else if s.length > 200 then (["title 长度不能超过 200 字符"], none)
      else ([], some (jsTrim s))
  | some _ => (["title 必须是字符串"], none)

/-- The `description` branch of `validateUpdateRequest`.  A `null` or
falsy-after-trim string is stored as `null` (`body.description?.trim() ||
null`). -/
def updDescription : Option JsValue → List String × Option (Option String)
  | none => ([], none)
  | some .null => ([], some none)
  | some (.str s) =>
      if s.length > 1000 then (["description 长度不能超过 1000 字符"], none)
      else ([], some (if jsTrim s = "" then none else some (jsTrim s)))
  | some _ => (["description 必须是字符串或 null"], none)

/-- The `status` branch of `validateUpdateRequest` (enum membership via
`includes`, i.e. strict equality with one of the two literals). -/
def updStatus : Option JsValue → List String × Option TaskStatus
  | none => ([], none)
  | some v =>
      if v = .str "pending" then ([], some .pending)
      else if v = .str "completed" then ([], some .completed)
      else (["status 必须是 pending 或 completed"], none)

/-- The `priority` branch of `validateUpdateRequest`. -/
def updPriority : Option JsValue → List String × Option TaskPriority
  | none => ([], none)
  | some v =>
      if v = .str "low" then ([], some .low)
      else if v = .str "medium" then ([], some .medium)
      else if v = .str "high" then ([], some .high)
      else (["priority 必须是 low、medium、high"], none)

/-- The `parent_id` branch of `validateUpdateRequest`: accepted when `null`
or any integer number, rejected otherwise. -/
def updParent : Option JsValue → List String × Option (Option Int)
  | none => ([], none)
  | some .null => ([], some none)
  | some (.int n) => ([], some (some n))
  | some _ => (["parent_id 必须是整数或 null"], none)

/-- `validateUpdateRequest` from `pages/api/tasks/[id].ts`: per-field checks
are independent; error messages are pushed in field order and the
`updateData` object collects the accepted fields. -/
def validateUpdateRequest (body : UpdateTaskRequest) : List String × UpdateData :=
  let t := updTitle body.title
  let d := updDescription body.description
  let s := updStatus body.status
  let p := updPriority body.priority
  let q := updParent body.parent_id
  (t.1 ++ d.1 ++ s.1 ++ p.1 ++ q.1,
   { title := t.2, description := d.2, status := s.2, priority := p.2, parent_id := q.2 })

/-- The `title` branch of `validateCreateRequest`: `!body.title` (absent,
`null`, empty string, zero, …) or a non-string gives the required-field
error, then emptiness after trim and the length cap are checked. -/
def titleErrorsCreate : Option JsValue → List String
  | some (.str s) =>
      if s = "" then ["title 是必填字段且必须是字符串"]
      else if (jsTrim s).length = 0 then ["title 不能为空"]
      else if s.length > 200 then ["title 长度不能超过 200 字符"]
      else []
  | some _ => ["title 是必填字段且必须是字符串"]
  | none => ["title 是必填字段且必须是字符串"]

/-- The `description` branch of `validateCreateRequest`. -/
def descriptionErrorsCreate : Option JsValue → List String
  | none => []
  | some .null => []
  | some (.str s) => if s.length > 1000 then ["description 长度不能超过 1000 字符"] else []
  | some _ => ["description 必须是字符串"]

/-- The `status` branch of `validateCreateRequest`. -/
def statusErrorsCreate : Option JsValue → List String
  | none => []
  | some v =>
      if v = .str "pending" ∨ v = .str "completed" then []
      else ["status 必须是 pending 或 completed"]

/-- The `priority` branch of `validateCreateRequest`. -/
def priorityErrorsCreate : Option JsValue → List String
  | none => []
  | some v =>
      if v = .str "low" ∨ v = .str "medium" ∨ v = .str "high" then []
      else ["priority 必须是 low、medium、high"]

/-- The `parent_id` branch of `validateCreateRequest`: an error only when the
field is present, non-null, and not an integer number.  There is no
positivity check. -/
def parentIdErrorsCreate : Option JsValue → List String
  | none => []
  | some .null => []
  | some (.int _) => []
  | some _ => ["parent_id 必须是整数"]

/-- `validateCreateRequest` from the `/api/tasks` route: the five field
checks run unconditionally and their error messages are concatenated in
field order. -/
def validateCreateRequest (body : CreateTaskRequest) : List String :=
  titleErrorsCreate body.title ++ descriptionErrorsCreate body.description ++
    statusErrorsCreate body.status ++ priorityErrorsCreate body.priority ++
    parentIdErrorsCreate body.parent_id

/-- A `select ... .eq('id', i).single()` against the store: the first row
with the given id (ids are unique, being the table's primary key).  `none`
models the `PGRST116` no-rows error. -/
def findTask (store : List Task) (i : Int) : Option Task :=
  match store with
  | [] => none
  | t :: rest => if t.id = i then some t else findTask rest i

/-- Insertion of a task into a list ordered by `created_at` ascending. -/
def insertByCreated (t : Task) : List Task → List Task
  | [] => [t]
  | h :: r => if h.created_at ≤ t.created_at then h :: insertByCreated t r else t :: h :: r

/-- Rows ordered by `created_at` ascending (`.order('created_at',
{ ascending: true })`). -/
def sortByCreatedAsc : List Task → List Task
  | [] => []
  | t :: r => insertByCreated t (sortByCreatedAsc r)

/-- A task together with its fetched direct children, as returned by the
GET branch (`{ ...task, subtasks }`). -/
structure TaskWithSubtasks where
  task : Task
  subtasks : List Task
deriving DecidableEq, Repr

/-- The error response for a bad id, shared by all three methods. -/
def invalidIdResp (α : Type) : ApiResp α :=
  ⟨400, false, none, some "无效的任务 ID，必须是正整数"⟩

/-- The GET branch of the `[id].ts` handler: validate the id, fetch the
task (404 on no rows), then fetch its direct children ordered by
`created_at` ascending.  The children query's error is discarded by the
code (`const { data: subtasks } = await ...`; `(subtasks as Task[]) || []`),
so `childrenFail` — an external store failure on that second query — yields
an empty `subtasks` array on a 200 response. -/
def getTaskHandler (store : List Task) (p : IdParam) (childrenFail : Bool) :
    ApiResp TaskWithSubtasks :=
  match validateId p with
  | none => invalidIdResp _
  | some i =>
    match findTask store i with
    | none => ⟨404, false, none, some "任务不存在"⟩
    | some t =>
      let children :=
        if childrenFail then []
        else sortByCreatedAsc (store.filter (fun r => decide (r.parent_id = some i)))
      ⟨200, true, some ⟨t, children⟩, none⟩

/-- Whether `updateData` has no keys (`Object.keys(updateData).length ===
0`). -/
def updateDataEmpty (u : UpdateData) : Bool :=
  u.title.isNone && u.description.isNone && u.status.isNone && u.priority.isNone &&
    u.parent_id.isNone

/-- Application of the accepted partial fields to a row (the store-side
semantics of `.update(updateData)`). -/
def applyUpdate (u : UpdateData) (t : Task) : Task :=
  { t with
    title := u.title.getD t.title
    description := u.description.getD t.description
    status := u.status.getD t.status
    priority := u.priority.getD t.priority
    parent_id := u.parent_id.getD t.parent_id }

/-- `errors.join('; ')`. -/
def joinSemicolon (l : List String) : String :=
  String.intercalate "; " l

/-- The final update call of the PATCH branch: `.update(updateData)
.eq('id', taskId).select()`.  `updateFails` models an external store error
on this call (500); otherwise the matching rows are updated and returned,
and zero returned rows map to 404. -/
def patchApply (store : List Task) (taskId : Int) (u : UpdateData) (updateFails : Bool) :
    ApiResp Task × List Task :=
  if updateFails then (⟨500, false, none, some "更新任务失败"⟩, store)
  else
    let newStore := store.map (fun t => if t.id = taskId then applyUpdate u t else t)
    match newStore.filter (fun t => decide (t.id = taskId)) with
    | [] => (⟨404, false, none, some "任务不存在"⟩, newStore)
    | t :: _ => (⟨200, true, some t, none⟩, newStore)

/-- The PATCH branch of the `[id].ts` handler after id validation: field
validation (400 joining all messages), empty-update rejection, the
self-parent check (`updateData.parent_id === taskId`), then — only when
`updateData.parent_id` is truthy, i.e. a non-zero number — the
parent-existence fetch (a store failure on it, `parentFetchFails`, lands in
the same 400 as a missing parent) and the two-node-cycle check, and finally
the update call. -/
def patchCore (store : List Task) (taskId : Int) (body : UpdateTaskRequest)
    (parentFetchFails updateFails : Bool) : ApiResp Task × List Task :=
  let v := validateUpdateRequest body
  if v.1 ≠ [] then (⟨400, false, none, some (joinSemicolon v.1)⟩, store)
  else if updateDataEmpty v.2 then (⟨400, false, none, some "没有提供任何要更新的字段"⟩, store)
  else if v.2.parent_id = some (some taskId) then
    (⟨400, false, none, some "任务不能成为自己的子任务"⟩, store)
  else
    match v.2.parent_id with
    | some (some pid) =>
      if pid = 0 then patchApply store taskId v.2 updateFails
      else if parentFetchFails then (⟨400, false, none, some "父任务不存在"⟩, store)
      else
        match findTask store pid with
        | none => (⟨400, false, none, some "父任务不存在"⟩, store)
        | some parentTask =>
          if parentTask.parent_id = some taskId then
            (⟨400, false, none, some "不能创建循环的父子关系"⟩, store)
          else patchApply store taskId v.2 updateFails
    | _ => patchApply store taskId v.2 updateFails

/-- The PATCH branch of the `[id].ts` handler, including id validation. -/
def patchHandler (store : List Task) (p : IdParam) (body : UpdateTaskRequest)
    (parentFetchFails updateFails : Bool) : ApiResp Task × List Task :=
  match validateId p with
  | none => (invalidIdResp _, store)
  | some taskId => patchCore store taskId body parentFetchFails updateFails

/-- What the DELETE branch returns on success: `{ message, deleted }` where
`deleted` is the row of the existence check, which selected only
`'id, title'` — not the full row. -/
structure DeleteData where
  message : String
  deleted_id : Int
  deleted_title : String
deriving DecidableEq, Repr

/-- The DELETE branch of the `[id].ts` handler: validate the id, check
existence with `.select('id, title').eq('id', taskId).single()` (404 when
absent), then `.delete().eq('id', taskId)` (`deleteFails` models an external
store error on the delete call, surfaced as 500 with the store unchanged).
The cascade to child rows is performed inside the external store by the
schema's `ON DELETE CASCADE` and is outside this embedding (the handler
issues a single-id delete). -/
def deleteHandler (store : List Task) (p : IdParam) (deleteFails : Bool) :
    ApiResp DeleteData × List Task :=
  match validateId p with
  | none => (invalidIdResp _, store)
  | some i =>
    match findTask store i with
    | none => (⟨404, false, none, some "任务不存在"⟩, store)
    | some t =>
      if deleteFails then (⟨500, false, none, some "删除任务失败"⟩, store)
      else
        (⟨200, true, some ⟨"任务已删除", t.id, t.title⟩, none⟩,
         store.filter (fun r => decide (¬ r.id = i)))

/-- A JSON value as produced by `JSON.parse`.  Only the structure needed by
the breakdown code is retained: array elements are inspected (strings are
kept whole, anything else makes the later `task.replace` call throw), while
numbers, object members and booleans only matter for parse success. -/
inductive Json
  | null
  | bool (b : Bool)
  | num
  | str (s : String)
  | arr (elems : List Json)
  | obj

/-- Whitespace accepted between JSON tokens. -/
def jsonWs (c : Char) : Bool :=
  c = ' ' ∨ c = '\t' ∨ c = '\n' ∨ c = '\r'

/-- Drop JSON inter-token whitespace. -/
def skipJsonWs (cs : List Char) : List Char :=
  cs.dropWhile jsonWs

/-- The body of a JSON string after its opening quote: returns the decoded
characters and the remainder after the closing quote.  Escapes are decoded;
an unescaped control character is a syntax error, as in `JSON.parse`.  The
fuel is at least the input length, which the callers supply. -/
def parseJsonStringChars : Nat → List Char → Option (List Char × List Char)
  | 0, _ => none
  | _ + 1, [] => none
  | fuel + 1, c :: rest =>
    if c = '"' then some ([], rest)
    else if c = '\\' then
      match rest with
      | [] => none
      | e :: rest2 =>
        let cont : Char → List Char → Option (List Char × List Char) := fun ch rem =>
          (parseJsonStringChars fuel rem).map (fun p => (ch :: p.1, p.2))
        if e = '"' then cont '"' rest2
        else if e = '\\' then cont '\\' rest2
        else if e = '/' then cont '/' rest2
        else if e = 'b' then cont '\x08' rest2
        else if e = 'f' then cont '\x0c' rest2
        else if e = 'n' then cont '\n' rest2
        else if e = 'r' then cont '\r' rest2
        else if e = 't' then cont '\t' rest2
        else if e = 'u' then
          match rest2 with
          | a :: b :: c2 :: d :: rest3 =>
            match hexVal a, hexVal b, hexVal c2, hexVal d with
            | some x1, some x2, some x3, some x4 =>
                cont (Char.ofNat (((x1 * 16 + x2) * 16 + x3) * 16 + x4)) rest3
            | _, _, _, _ => none
          | _ => none
        else none
    else if c.toNat < 32 then none
    else (parseJsonStringChars fuel rest).map (fun p => (c :: p.1, p.2))

/-- The fraction part of a JSON number (optional `.` followed by at least
one digit); returns the remainder. -/
def parseJsonFrac : List Char → Option (List Char)
  | '.' :: r =>
      match r with
      | c :: _ => if c.isDigit then some (r.dropWhile Char.isDigit) else none
      | [] => none
  | r => some r

/-- The exponent part of a JSON number (optional `e`/`E`, sign, digits);
returns the remainder. -/
def parseJsonExp : List Char → Option (List Char)
  | [] => some []
  | c :: r =>
      if c = 'e' ∨ c = 'E' then
        let r2 := match r with
          | s :: r' => if s = '+' ∨ s = '-' then r' else s :: r'
          | [] => []
        match r2 with
        | d :: _ => if d.isDigit then some (r2.dropWhile Char.isDigit) else none
        | [] => none
      else some (c :: r)

/-- A JSON number (`-? (0 | [1-9][0-9]*) frac? exp?`); returns the
remainder. -/
def parseJsonNumber (cs : List Char) : Option (List Char) :=
  let cs1 := match cs with
    | '-' :: r => r
    | _ => cs
  match cs1 with
  | '0' :: r => (parseJsonFrac r).bind parseJsonExp
  | c :: r =>
      if c.isDigit then (parseJsonFrac (r.dropWhile Char.isDigit)).bind parseJsonExp
      else none
  | [] => none

/-- Match a literal suffix (the tail of `true` / `false` / `null`). -/
def dropLit : List Char → List Char → Option (List Char)
  | [], r => some r
  | _ :: _, [] => none
  | l :: ls, c :: r => if c = l then dropLit ls r else none

mutual

/-- Recursive-descent parser for one JSON value; returns the value and the
remainder.  Fuel decreases on every recursive call; the top-level entry
point supplies more fuel than the input length, so fuel exhaustion is never
the reason a parse of one of the concrete strings in this file fails. -/
def parseJsonValue : Nat → List Char → Option (Json × List Char)
  | 0, _ => none
  | fuel + 1, cs =>
    match skipJsonWs cs with
    | [] => none
    | c :: rest =>
      if c = '"' then
        (parseJsonStringChars (rest.length + 1) rest).map (fun p => (Json.str ⟨p.1⟩, p.2))
      else if c = '[' then
        match skipJsonWs rest with
        | ']' :: r => some (.arr [], r)
        | cs2 => parseJsonElems fuel cs2
      else if c = '{' then
        match skipJsonWs rest with
        | '}' :: r => some (.obj, r)
        | cs2 => parseJsonMembers fuel cs2
      else if c = 't' then (dropLit ['r', 'u', 'e'] rest).map (fun r => (Json.bool true, r))
      else if c = 'f' then (dropLit ['a', 'l', 's', 'e'] rest).map (fun r => (Json.bool false, r))
      else if c = 'n' then (dropLit ['u', 'l', 'l'] rest).map (fun r => (Json.null, r))
      else (parseJsonNumber (c :: rest)).map (fun r => (Json.num, r))

/-- One or more comma-separated array elements followed by `]`. -/
def parseJsonElems : Nat → List Char → Option (Json × List Char)
  | 0, _ => none
  | fuel + 1, cs =>
    match parseJsonValue fuel cs with
    | none => none
    | some (v, r) =>
      match skipJsonWs r with
      | ',' :: r2 =>
        match parseJsonElems fuel r2 with
        | some (.arr vs, r3) => some (.arr (v :: vs), r3)
        | _ => none
      | ']' :: r2 => some (.arr [v], r2)
      | _ => none

/-- One or more comma-separated object members followed by `}`. -/
def parseJsonMembers : Nat → List Char → Option (Json × List Char)
  | 0, _ => none
  | fuel + 1, cs =>
    match skipJsonWs cs with
    | '"' :: r =>
      match parseJsonStringChars (r.length + 1) r with
      | none => none
      | some (_, r2) =>
        match skipJsonWs r2 with
        | ':' :: r3 =>
          match parseJsonValue fuel r3 with
          | none => none
          | some (_, r4) =>
            match skipJsonWs r4 with
            | ',' :: r5 => parseJsonMembers fuel r5
            | '}' :: r5 => some (.obj, r5)
            | _ => none
        | _ => none
    | _ => none

end

/-- `JSON.parse`: parse one value and require only trailing whitespace;
`none` models a thrown `SyntaxError`. -/
def jsonParse (s : String) : Option Json :=
  match parseJsonValue (2 * s.data.length + 4) s.data with
  | some (v, r) => if skipJsonWs r = [] then some v else none
  | none => none

/-- Case-insensitive ASCII prefix test (the pattern is given in
lowercase). -/
def startsWithCI : List Char → List Char → Bool
  | [], _ => true
  | _ :: _, [] => false
  | p :: ps, c :: cs => c.toLower = p ∧ startsWithCI ps cs

/-- The fence-stripping prelude of the breakdown parser:
`trim`, `replace(/^\x60\x60\x60json\s*/i, '')`, `replace(/^\x60\x60\x60\s*/i, '')`,
`replace(/\s*\x60\x60\x60$/i, '')`, `trim`, applied in that order. -/
def stripFences (s : String) : String :=
  let cs := (jsTrim s).data
  let cs := if startsWithCI "```json".data cs then (cs.drop 7).dropWhile jsWs else cs
  let cs := if startsWithCI "```".data cs then (cs.drop 3).dropWhile jsWs else cs
  let cs :=
    if cs.reverse.take 3 = ['`', '`', '`'] then ((cs.reverse.drop 3).dropWhile jsWs).reverse
    else cs
  jsTrim ⟨cs⟩

/-- The characters strictly before the first `]`, when one exists. -/
def upToClose : List Char → Option (List Char)
  | [] => none
  | c :: r => if c = ']' then some [] else (upToClose r).map (c :: ·)

/-- The regex match `/\[[\s\S]*?\]/`: the lazy match runs from the first `[`
that is followed by a `]` up to the nearest such `]`. -/
def firstBracketMatch : List Char → Option (List Char)
  | [] => none
  | c :: r =>
    if c = '[' then
      match upToClose r with
      | some pre => some ('[' :: (pre ++ [']']))
      | none => firstBracketMatch r
    else firstBracketMatch r

/-- Global replacement of a fixed pattern by the empty string, scanning left
to right without overlap (`String.prototype.replace` with a `g` regex whose
pattern is a literal).  `ci` compares ASCII letters case-insensitively. -/
def removeAllPat (pat : List Char) (ci : Bool) : Nat → List Char → List Char
  | 0, cs => cs
  | _ + 1, [] => []
  | fuel + 1, c :: r =>
    let here := if ci then startsWithCI pat (c :: r) else (c :: r).take pat.length = pat
    if here then removeAllPat pat ci fuel ((c :: r).drop pat.length)
    else c :: removeAllPat pat ci fuel r

/-- Leading characters stripped by `/^["'\[,\s]+/`. -/
def leadJunk (c : Char) : Bool :=
  c = '"' ∨ c = '\'' ∨ c = '[' ∨ c = ',' ∨ jsWs c

/-- Trailing characters stripped by `/["'\]\s,]+$/`. -/
def trailJunk (c : Char) : Bool :=
  c = '"' ∨ c = '\'' ∨ c = ']' ∨ c = ',' ∨ jsWs c

/-- `replace(/^["'\[,\s]+|["'\]\s,]+$/g, '')`: the anchored alternatives
remove one leading run and one trailing run. -/
def stripEdgeJunk (cs : List Char) : List Char :=
  ((cs.dropWhile leadJunk).reverse.dropWhile trailJunk).reverse

/-- `replace(/^[\d\-•\*\.]\s*/, '')`: at most one marker character (a digit,
dash, bullet, star or dot) plus following whitespace is removed — the
character class is not repeated, so `1.` loses only the `1`. -/
def stripLeadMarker : List Char → List Char
  | [] => []
  | c :: r =>
    if c.isDigit ∨ c = '-' ∨ c = '•' ∨ c = '*' ∨ c = '.' then r.dropWhile jsWs
    else c :: r

/-- The filter `/^(\x60\x60\x60|步骤|Step|Task|JSON)/i` on a line. -/
def isHeaderLine (s : String) : Bool :=
  startsWithCI "```".data s.data ∨ startsWithCI "步骤".data s.data ∨
    startsWithCI "step".data s.data ∨ startsWithCI "task".data s.data ∨
    startsWithCI "json".data s.data

/-- Whether a line is only brackets and commas (`/^[\[\],]+$/`). -/
def pureSymbols (s : String) : Bool :=
  s.data ≠ [] ∧ s.data.all (fun c => c = '[' ∨ c = ']' ∨ c = ',')

/-- `split('\n')` over the character list. -/
def splitNl : List Char → List (List Char)
  | [] => [[]]
  | c :: r =>
    if c = '\n' then [] :: splitNl r
    else
      match splitNl r with
      | h :: t => (c :: h) :: t
      | [] => [[c]]

/-- The last-resort line heuristic of the breakdown parser: split on `\n`,
trim, drop empty and header lines, strip edge junk and one leading marker,
keep lines longer than 3 characters that are not pure symbols, cap at 5. -/
def lineHeuristic (aiResponse : String) : List String :=
  let lines := (((splitNl aiResponse.data).map (fun l => jsTrim ⟨l⟩))).filter (fun l => decide (l ≠ ""))
  let lines := lines.filter (fun l => !isHeaderLine l)
  let cleaned := lines.map (fun l => jsTrim ⟨stripLeadMarker (stripEdgeJunk l.data)⟩)
  (cleaned.filter (fun l => decide (l.length > 3) && !pureSymbols l)).take 5

/-- Replacement of every `\"` pair by `"` (`replace(/\\"/g, '"')`). -/
def replaceEscQuote : List Char → List Char
  | '\\' :: '"' :: r => '"' :: replaceEscQuote r
  | c :: r => c :: replaceEscQuote r
  | [] => []

/-- The per-title cleanup applied after whichever parser layer succeeded:
strip edge junk, normalize escaped quotes, trim. -/
def cleanTitle (s : String) : String :=
  jsTrim ⟨replaceEscQuote (stripEdgeJunk s.data)⟩

/-- The recovery chain run when `JSON.parse` threw (the outer `catch`):
regex-extract a bracketed substring of the raw reply and parse it after
deleting fence markers; if that parse throws, fall back to the line
heuristic.  When the regex finds no match, nothing is assigned and the
subtask list stays empty — the line heuristic is NOT reached. -/
def innerRecover (aiResponse : String) : Json :=
  match firstBracketMatch aiResponse.data with
  | none => Json.arr []
  | some m =>
    let m1 := removeAllPat "```json".data true (m.length + 1) m
    let m2 := removeAllPat "```".data false (m1.length + 1) m1
    let arrayStr := jsTrim ⟨m2⟩
    match jsonParse arrayStr with
    | some q => q
    | none => Json.arr ((lineHeuristic aiResponse).map Json.str)

/-- The layered reply parser of the breakdown route, producing the value of
the `subtasks` variable after the try/catch: strict parse of the
fence-stripped reply; if that yields a non-array, regex-extract from the
fence-stripped reply; if a parse throws, the `catch` recovery on the raw
reply. -/
def parseChain (aiResponse : String) : Json :=
  let cleaned := stripFences aiResponse
  match jsonParse cleaned with
  | some (.arr xs) => .arr xs
  | some _ =>
    match firstBracketMatch cleaned.data with
    | none => .arr []
    | some m =>
      match jsonParse ⟨m⟩ with
      | some q => q
      | none => innerRecover aiResponse
  | none => innerRecover aiResponse

/-- The array elements as strings; `none` models the `TypeError` thrown by
`task.replace` when an element is not a string (caught by the route's outer
handler as a 500). -/
def elemsAsStrings : List Json → Option (List String)
  | [] => some []
  | .str s :: r => (elemsAsStrings r).map (s :: ·)
  | _ :: _ => none

/-- The cleanup pass over the parsed `subtasks` (`subtasks.map(...).
filter(task => task.length > 0)`); `none` models a thrown `TypeError`
(non-array `subtasks` or a non-string element). -/
def cleanSubtasks : Json → Option (List String)
  | .arr xs => (elemsAsStrings xs).map (fun l => (l.map cleanTitle).filter (fun t => decide (t.length > 0)))
  | _ => none

/-- The bulk insert of the breakdown route: one row per final subtask title,
with store-assigned consecutive ids starting at `nextId` and a fixed
generated description naming the subject title. -/
def insertRows (nextId : Int) (now : Nat) (pid : Option Int) (ftitle : String) :
    List String → List Task
  | [] => []
  | s :: rest =>
    { id := nextId, title := jsTrim s,
      description := some ("由 AI 从「" ++ ftitle ++ "」拆解生成"),
      status := .pending, priority := .medium, parent_id := pid, created_at := now } ::
      insertRows (nextId + 1) now pid ftitle rest

/-- The breakdown route from the external model's reply onward: parse the
reply through the layered chain, clean the titles, reject an empty result
(400) and fewer than 3 titles (400), truncate to 5, and bulk-insert the rows
under `finalTaskId` (500 when the insert call fails, modelled by
`insertFails`; the engine-specific `TypeError` message of a non-string
element is modelled by a fixed string). -/
def breakdownFromResponse (aiResponse : String) (finalTaskId : Option Int)
    (finalTaskTitle : String) (store : List Task) (nextId : Int) (now : Nat)
    (insertFails : Bool) : ApiResp (List Task) × List Task :=
  match cleanSubtasks (parseChain aiResponse) with
  | none => (⟨500, false, none, some "An unexpected error occurred"⟩, store)
  | some subtasks =>
    if subtasks.length = 0 then
      (⟨400, false, none, some "AI did not return valid subtasks. Please try again."⟩, store)
    else if subtasks.length < 3 then
      (⟨400, false, none,
        some ("AI only returned " ++ toString subtasks.length ++ " subtasks, expected 3-5")⟩,
       store)
    else
      let finalSubtasks := subtasks.take 5
      let rows := insertRows nextId now finalTaskId finalTaskTitle finalSubtasks
      if insertFails then (⟨500, false, none, some "Failed to create subtasks"⟩, store)
      else (⟨201, true, some rows, none⟩, store ++ rows)

/-- Bulk insert creates exactly one row per title. -/
theorem insertRows_length (nextId : Int) (now : Nat) (pid : Option Int) (ft : String)
    (l : List String) : (insertRows nextId now pid ft l).length = l.length := by
  induction l generalizing nextId with
  | nil => rfl
  | cons h t ih => simp [insertRows, ih]

/-- With pairwise distinct ids, the single-row fetch of a member row returns
that row. -/
theorem findTask_of_mem (store : List Task) (B : Task) (hmem : B ∈ store)
    (hnodup : (store.map Task.id).Nodup) : findTask store B.id = some B := by
  induction store with
  | nil => cases hmem
  | cons h t ih =>
    rw [List.map_cons, List.nodup_cons] at hnodup
    rcases List.mem_cons.mp hmem with rfl | hmem'
    · simp [findTask]
    · have hne : ¬ h.id = B.id := fun he =>
        hnodup.1 (he ▸ List.mem_map_of_mem Task.id hmem')
      simp only [findTask, if_neg hne]
      exact ih hmem' hnodup.2

/-- The final update call never answers 400: its outcomes are 500, 404 and
200. -/
theorem patchApply_status_ne_400 (store : List Task) (tid : Int) (u : UpdateData)
    (uf : Bool) : (patchApply store tid u uf).1.status ≠ 400 := by
  simp only [patchApply]
  split_ifs
  · simp
  · split <;> simp

/-- Every title error message of the update validator is one of three fixed
strings. -/
theorem mem_updTitle_errors (v : Option JsValue) :
    ∀ e ∈ (updTitle v).1,
      e = "title 必须是字符串" ∨ e = "title 不能为空" ∨ e = "title 长度不能超过 200 字符" := by
  rcases v with _ | v
  · simp [updTitle]
  · rcases v <;> simp [updTitle] <;> split_ifs <;> simp

/-- Every description error message of the update validator is one of two
fixed strings. -/
theorem mem_updDescription_errors (v : Option JsValue) :
    ∀ e ∈ (updDescription v).1,
      e = "description 必须是字符串或 null" ∨ e = "description 长度不能超过 1000 字符" := by
  rcases v with _ | v
  · simp [updDescription]
  · rcases v <;> simp [updDescription] <;> split_ifs <;> simp

/-- The status branch of the update validator has one possible message. -/
theorem mem_updStatus_errors (v : Option JsValue) :
    ∀ e ∈ (updStatus v).1, e = "status 必须是 pending 或 completed" := by
  rcases v with _ | v
  · simp [updStatus]
  · simp only [updStatus]
    split_ifs <;> simp

/-- The priority branch of the update validator has one possible message. -/
theorem mem_updPriority_errors (v : Option JsValue) :
    ∀ e ∈ (updPriority v).1, e = "priority 必须是 low、medium、high" := by
  rcases v with _ | v
  · simp [updPriority]
  · simp only [updPriority]
    split_ifs <;> simp

/-- Whether a `parent_id` field value is present, non-null and not an
integer number — exactly the condition under which both validators push
their `parent_id` error. -/
def parentIdRejected : Option JsValue → Bool
  | some (.str _) => true
  | some .numNonInt => true
  | some .other => true
  | _ => false

/-- The update validator's `parent_id` message appears iff the field is
present, non-null and not an integer. -/
theorem mem_updParent_errors (v : Option JsValue) :
    "parent_id 必须是整数或 null" ∈ (updParent v).1 ↔ parentIdRejected v = true := by
  rcases v with _ | v
  · simp [updParent, parentIdRejected]
  · rcases v <;> simp [updParent, parentIdRejected]

/-- Every title error message of the create validator is one of three fixed
strings. -/
theorem mem_titleErrorsCreate (v : Option JsValue) :
    ∀ e ∈ titleErrorsCreate v,
      e = "title 是必填字段且必须是字符串" ∨ e = "title 不能为空" ∨
        e = "title 长度不能超过 200 字符" := by
  rcases v with _ | v
  · simp [titleErrorsCreate]
  · rcases v <;> simp [titleErrorsCreate] <;> split_ifs <;> simp

/-- The description branch of the create validator has two possible
messages. -/
theorem mem_descriptionErrorsCreate (v : Option JsValue) :
    ∀ e ∈ descriptionErrorsCreate v,
      e = "description 必须是字符串" ∨ e = "description 长度不能超过 1000 字符" := by
  rcases v with _ | v
  · simp [descriptionErrorsCreate]
  · rcases v <;> simp [descriptionErrorsCreate] <;> split_ifs <;> simp

/-- The status branch of the create validator has one possible message. -/
theorem mem_statusErrorsCreate (v : Option JsValue) :
    ∀ e ∈ statusErrorsCreate v, e = "status 必须是 pending 或 completed" := by
  rcases v with _ | v
  · simp [statusErrorsCreate]
  · simp only [statusErrorsCreate]
    split_ifs <;> simp

/-- The priority branch of the create validator has one possible message. -/
theorem mem_priorityErrorsCreate (v : Option JsValue) :
    ∀ e ∈ priorityErrorsCreate v, e = "priority 必须是 low、medium、high" := by
  rcases v with _ | v
  · simp [priorityErrorsCreate]
  · simp only [priorityErrorsCreate]
    split_ifs <;> simp

/-- The create validator's `parent_id` message appears iff the field is
present, non-null and not an integer. -/
theorem mem_parentIdErrorsCreate (v : Option JsValue) :
    "parent_id 必须是整数" ∈ parentIdErrorsCreate v ↔ parentIdRejected v = true := by
  rcases v with _ | v
  · simp [parentIdErrorsCreate, parentIdRejected]
  · rcases v <;> simp [parentIdErrorsCreate, parentIdRejected]

/-- C1: every breakdown request answered with HTTP 201 returns between 3 and
5 created subtasks, regardless of which parser layer produced the titles:
fewer than 3 cleaned titles fail with a 400 validation error, and more than
5 are truncated to 5 before the bulk insert. -/
theorem breakdown_result_size_invariant (aiR : String) (fid : Option Int) (ft : String)
    (store : List Task) (nid : Int) (now : Nat) (ifail : Bool) (ts : List Task)
    (h : (breakdownFromResponse aiR fid ft store nid now ifail).1 =
      ⟨201, true, some ts, none⟩) :
    3 ≤ ts.length ∧ ts.length ≤ 5 := by
  simp only [breakdownFromResponse] at h
  split at h
  · simp at h
  · rename_i subt heq
    split_ifs at h with h0 h3 hins
    · simp at h
    · simp at h
    · simp at h
    · have hts := congrArg ApiResp.data h
      simp only [Option.some.injEq] at hts
      subst hts
      rw [insertRows_length, List.length_take]
      omega

/-- Witness for C1: a concrete reply handled by the strict JSON layer
produces a 201 with exactly 3 subtasks. -/
theorem breakdown_result_size_invariant_witness :
    3 ≤ (insertRows 1 0 none "t" ["aaaa", "bbbb", "cccc"]).length ∧
      (insertRows 1 0 none "t" ["aaaa", "bbbb", "cccc"]).length ≤ 5 :=
  breakdown_result_size_invariant "[\"aaaa\",\"bbbb\",\"cccc\"]" none "t" [] 1 0 false
    (insertRows 1 0 none "t" ["aaaa", "bbbb", "cccc"]) (by decide)

/-- C2: a PATCH whose body sets `parent_id` to the task's own id always
fails with HTTP 400 and leaves the store untouched, whatever other fields
the body carries: either field validation already failed (400), or the
self-parent check fires before any store call. -/
theorem patch_self_parent_rejected (store : List Task) (p : IdParam) (tid : Int)
    (body : UpdateTaskRequest) (pf uf : Bool)
    (hid : validateId p = some tid) (hb : body.parent_id = some (.int tid)) :
    (patchHandler store p body pf uf).1.status = 400 ∧
      (patchHandler store p body pf uf).1.success = false ∧
      (patchHandler store p body pf uf).2 = store := by
  have hpid : (validateUpdateRequest body).2.parent_id = some (some tid) := by
    simp [validateUpdateRequest, updParent, hb]
  unfold patchHandler
  rw [hid]
  simp only [patchCore]
  split_ifs with h1 h2 h3 <;>
    first
      | exact ⟨rfl, rfl, rfl⟩
      | exact absurd hpid h3

/-- Witness for C2 at a concrete store and body. -/
theorem patch_self_parent_rejected_witness :
    (patchHandler [] (.str "7") { parent_id := some (.int 7) } false false).1.status = 400 ∧
      (patchHandler [] (.str "7") { parent_id := some (.int 7) } false false).1.success = false ∧
      (patchHandler [] (.str "7") { parent_id := some (.int 7) } false false).2 = [] :=
  patch_self_parent_rejected [] (.str "7") 7 { parent_id := some (.int 7) } false false
    (by decide) (by decide)

/-- C3: for tasks `B` in a store with pairwise distinct non-zero ids, if
`B.parent_id` equals the id being patched, then a PATCH trying to set that
task's `parent_id` to `B.id` fails with HTTP 400 and leaves the store
unchanged: the hierarchy guard rejects a candidate parent whose own
`parent_id` points back at the task, so no 2-node cycle is created. -/
theorem patch_two_node_cycle_rejected (store : List Task) (p : IdParam) (tid : Int)
    (B : Task) (body : UpdateTaskRequest) (pf uf : Bool)
    (hid : validateId p = some tid)
    (hmem : B ∈ store) (hnodup : (store.map Task.id).Nodup)
    (hBparent : B.parent_id = some tid) (hBid : B.id ≠ 0)
    (hb : body.parent_id = some (.int B.id)) :
    (patchHandler store p body pf uf).1.status = 400 ∧
      (patchHandler store p body pf uf).2 = store := by
  have hpid : (validateUpdateRequest body).2.parent_id = some (some B.id) := by
    simp [validateUpdateRequest, updParent, hb]
  unfold patchHandler
  rw [hid]
  simp only [patchCore]
  split_ifs with h1 h2 h3
  · exact ⟨rfl, rfl⟩
  · exact ⟨rfl, rfl⟩
  · exact ⟨rfl, rfl⟩
  · simp [hpid, hBid]
  · simp [hpid, hBid, findTask_of_mem store B hmem hnodup, hBparent]

/-- Witness for C3: `B` (id 2) is a child of task 1; repointing task 1 at
`B` is rejected. -/
theorem patch_two_node_cycle_rejected_witness :
    (patchHandler
        [⟨1, "A", none, .pending, .medium, none, 0⟩,
         ⟨2, "B", none, .pending, .medium, some 1, 1⟩]
        (.str "1") { parent_id := some (.int 2) } false false).1.status = 400 ∧
      (patchHandler
        [⟨1, "A", none, .pending, .medium, none, 0⟩,
         ⟨2, "B", none, .pending, .medium, some 1, 1⟩]
        (.str "1") { parent_id := some (.int 2) } false false).2 =
        [⟨1, "A", none, .pending, .medium, none, 0⟩,
         ⟨2, "B", none, .pending, .medium, some 1, 1⟩] :=
  patch_two_node_cycle_rejected _ (.str "1") 1 ⟨2, "B", none, .pending, .medium, some 1, 1⟩
    { parent_id := some (.int 2) } false false (by decide) (by decide) (by decide)
    (by decide) (by decide) (by decide)

/-- C4: create-payload validation aggregates instead of short-circuiting:
a payload whose title is empty after trimming and whose status is outside
the enum yields both a title error and the status error, whatever the other
fields hold. -/
theorem create_validation_aggregates (t : String) (ht : (jsTrim t).length = 0)
    (sv : JsValue) (hs1 : sv ≠ .str "pending") (hs2 : sv ≠ .str "completed")
    (d pr q : Option JsValue) :
    (∃ e ∈ validateCreateRequest ⟨some (.str t), d, some sv, pr, q⟩,
        e = "title 是必填字段且必须是字符串" ∨ e = "title 不能为空") ∧
      "status 必须是 pending 或 completed" ∈
        validateCreateRequest ⟨some (.str t), d, some sv, pr, q⟩ := by
  constructor
  · have hA : ∃ e ∈ titleErrorsCreate (some (.str t)),
        e = "title 是必填字段且必须是字符串" ∨ e = "title 不能为空" := by
      by_cases h0 : t = ""
      · subst h0
        exact ⟨"title 是必填字段且必须是字符串", by simp [titleErrorsCreate], Or.inl rfl⟩
      · refine ⟨"title 不能为空", ?_, Or.inr rfl⟩
        simp only [titleErrorsCreate]
        rw [if_neg h0, if_pos ht]
        exact List.mem_singleton_self _
    obtain ⟨e, he, hor⟩ := hA
    exact ⟨e, List.mem_append_left _ (List.mem_append_left _
      (List.mem_append_left _ (List.mem_append_left _ he))), hor⟩
  · have hC : "status 必须是 pending 或 completed" ∈ statusErrorsCreate (some sv) := by
      simp only [statusErrorsCreate]
      rw [if_neg (fun hor => hor.elim hs1 hs2)]
      exact List.mem_singleton_self _
    exact List.mem_append_left _ (List.mem_append_left _ (List.mem_append_right _ hC))

/-- Witness for C4 at a whitespace title and a bogus status. -/
theorem create_validation_aggregates_witness :
    (∃ e ∈ validateCreateRequest ⟨some (.str " "), none, some (.str "done"), none, none⟩,
        e = "title 是必填字段且必须是字符串" ∨ e = "title 不能为空") ∧
      "status 必须是 pending 或 completed" ∈
        validateCreateRequest ⟨some (.str " "), none, some (.str "done"), none, none⟩ :=
  create_validation_aggregates " " (by decide) (.str "done") (by decide) (by decide)
    none none none

/-- C5 counterexample: both validators accept non-positive integers — a
create payload with `parent_id = 0` and an update payload with
`parent_id = -3` produce no validation error at all, contradicting the
claim that a present non-positive `parent_id` is reported. -/
theorem parent_id_not_positive_accepted :
    validateCreateRequest { title := some (.str "ok"), parent_id := some (.int 0) } = [] ∧
      (validateUpdateRequest { parent_id := some (.int (-3)) }).1 = [] := by decide

/-- C5 amended: the validators reject `parent_id` only for a present,
non-null, non-integer value — any integer, including zero and negatives,
passes; there is no positivity check. -/
theorem parent_id_integer_only_validation (c : CreateTaskRequest) (u : UpdateTaskRequest) :
    ("parent_id 必须是整数" ∈ validateCreateRequest c ↔
        parentIdRejected c.parent_id = true) ∧
      ("parent_id 必须是整数或 null" ∈ (validateUpdateRequest u).1 ↔
        parentIdRejected u.parent_id = true) := by
  constructor
  · constructor
    · intro h
      simp only [validateCreateRequest, List.mem_append] at h
      rcases h with (((h | h) | h) | h) | h
      · rcases mem_titleErrorsCreate _ _ h with h' | h' | h' <;> exact absurd h' (by decide)
      · rcases mem_descriptionErrorsCreate _ _ h with h' | h' <;> exact absurd h' (by decide)
      · exact absurd (mem_statusErrorsCreate _ _ h) (by decide)
      · exact absurd (mem_priorityErrorsCreate _ _ h) (by decide)
      · exact (mem_parentIdErrorsCreate _).mp h
    · intro h
      simp only [validateCreateRequest, List.mem_append]
      exact Or.inr ((mem_parentIdErrorsCreate _).mpr h)
  · constructor
    · intro h
      simp only [validateUpdateRequest, List.mem_append] at h
      rcases h with (((h | h) | h) | h) | h
      · rcases mem_updTitle_errors _ _ h with h' | h' | h' <;> exact absurd h' (by decide)
      · rcases mem_updDescription_errors _ _ h with h' | h' <;> exact absurd h' (by decide)
      · exact absurd (mem_updStatus_errors _ _ h) (by decide)
      · exact absurd (mem_updPriority_errors _ _ h) (by decide)
      · exact (mem_updParent_errors _).mp h
    · intro h
      simp only [validateUpdateRequest, List.mem_append]
      exact Or.inr ((mem_updParent_errors _).mpr h)

/-- C6 counterexample: the plain numbered text with no bracketed substring
does not yield the three step titles — the parser chain leaves the subtask
list empty. -/
theorem breakdown_no_bracket_counterexample :
    cleanSubtasks (parseChain "1. Do X\n2. Do Y\n3. Do Z") ≠
      some ["Do X", "Do Y", "Do Z"] := by decide

/-- C6 amended: on text with no bracketed substring, the extract-JSON layer
finds no match and returns without throwing, so the line heuristic is never
reached: `subtasks` stays the empty array and the breakdown request fails
with the 400 no-valid-subtasks error. -/
theorem breakdown_no_bracket_yields_empty :
    parseChain "1. Do X\n2. Do Y\n3. Do Z" = Json.arr [] ∧
      (breakdownFromResponse "1. Do X\n2. Do Y\n3. Do Z" none "任务" [] 1 0 false).1 =
        ⟨400, false, none, some "AI did not return valid subtasks. Please try again."⟩ :=
  ⟨rfl, by decide⟩

/-- C7 counterexample: the id string `"12abc"` is not the decimal
representation of a positive integer, yet `parseInt` truncation accepts it
as 12 and the GET handler proceeds to the store lookup (404 on an empty
store, not 400). -/
theorem id_trailing_garbage_accepted :
    validateId (.str "12abc") = some 12 ∧
      (getTaskHandler [] (.str "12abc") false).status = 404 := by decide

/-- C7 amended: whenever `validateId` rejects the id parameter (no parsable
integer prefix, or a non-positive value, or a missing/empty/array
parameter), all three methods answer 400 with `success:false` before
touching the store, which is returned unchanged; but a string with a
positive integer prefix followed by junk, such as `"12abc"`, is accepted as
that integer. -/
theorem invalid_id_rejected_before_store (store : List Task) (p : IdParam)
    (body : UpdateTaskRequest) (cf pf uf df : Bool) (h : validateId p = none) :
    getTaskHandler store p cf = invalidIdResp _ ∧
      patchHandler store p body pf uf = (invalidIdResp _, store) ∧
      deleteHandler store p df = (invalidIdResp _, store) := by
  unfold getTaskHandler patchHandler deleteHandler
  simp [h]

/-- Witness for C7 (amended) at a plain non-numeric id. -/
theorem invalid_id_rejected_before_store_witness :
    getTaskHandler [] (.str "abc") false = invalidIdResp TaskWithSubtasks ∧
      patchHandler [] (.str "abc") {} false false = (invalidIdResp Task, []) ∧
      deleteHandler [] (.str "abc") false = (invalidIdResp DeleteData, []) :=
  invalid_id_rejected_before_store [] (.str "abc") {} false false false false (by decide)

/-- C8 counterexample: two stores whose only row differs in `description`
produce identical DELETE responses, so the `deleted` field cannot be the
complete pre-deletion snapshot — the existence check selected only
`id, title`. -/
theorem delete_partial_snapshot_counterexample :
    (deleteHandler [⟨1, "t", some "X", .pending, .medium, none, 0⟩] (.str "1") false).1 =
        (deleteHandler [⟨1, "t", some "Y", .pending, .medium, none, 0⟩] (.str "1") false).1 ∧
      (⟨1, "t", some "X", .pending, .medium, none, 0⟩ : Task) ≠
        ⟨1, "t", some "Y", .pending, .medium, none, 0⟩ := by decide

/-- C8 amended: DELETE answers 404 when no row with the id exists; otherwise
it removes the row and returns a partial pre-deletion snapshot holding only
the row's `id` and `title` (the fields the existence check selected). -/
theorem delete_semantics (store : List Task) (p : IdParam) (i : Int)
    (hid : validateId p = some i) :
    (∀ t, findTask store i = some t →
        deleteHandler store p false =
          (⟨200, true, some ⟨"任务已删除", t.id, t.title⟩, none⟩,
            store.filter (fun r => decide (¬ r.id = i)))) ∧
      (findTask store i = none →
        ∀ df, deleteHandler store p df = (⟨404, false, none, some "任务不存在"⟩, store)) := by
  unfold deleteHandler
  simp only [hid]
  constructor
  · intro t ht
    simp only [ht]
    rfl
  · intro hnone df
    simp only [hnone]

/-- Witness for C8 (amended): deleting the only row returns its id and
title and empties the store. -/
theorem delete_semantics_witness :
    deleteHandler [⟨5, "todo", some "d", .pending, .high, none, 3⟩] (.str "5") false =
      (⟨200, true, some ⟨"任务已删除", 5, "todo"⟩, none⟩, []) :=
  (delete_semantics [⟨5, "todo", some "d", .pending, .high, none, 3⟩] (.str "5") 5
      (by decide)).1
    ⟨5, "todo", some "d", .pending, .high, none, 3⟩ (by decide)

/-- C9: when the task fetch succeeds but the separate children query fails,
the GET handler still answers 200 with `success:true` and an empty
`subtasks` array — the failure is indistinguishable from the task having no
children. -/
theorem get_children_error_ignored (store : List Task) (p : IdParam) (i : Int) (t : Task)
    (hid : validateId p = some i) (hfind : findTask store i = some t) :
    getTaskHandler store p true = ⟨200, true, some ⟨t, []⟩, none⟩ := by
  simp [getTaskHandler, hid, hfind]

/-- Witness for C9: the store even contains a child of task 1, yet the
failed children query reports no subtasks. -/
theorem get_children_error_ignored_witness :
    getTaskHandler
        [⟨1, "p", none, .pending, .medium, none, 0⟩,
         ⟨2, "c", none, .pending, .medium, some 1, 1⟩] (.str "1") true =
      ⟨200, true, some ⟨⟨1, "p", none, .pending, .medium, none, 0⟩, []⟩, none⟩ :=
  get_children_error_ignored _ (.str "1") 1 ⟨1, "p", none, .pending, .medium, none, 0⟩
    (by decide) (by decide)

/-- Any 400 answer of the PATCH core leaves the store unchanged. -/
theorem patchCore_400_store (store : List Task) (tid : Int) (body : UpdateTaskRequest)
    (pf uf : Bool) (h : (patchCore store tid body pf uf).1.status = 400) :
    (patchCore store tid body pf uf).2 = store := by
  simp only [patchCore] at h ⊢
  split_ifs at h ⊢ with h1 h2 h3
  · rfl
  · rfl
  · rfl
  all_goals
    rcases hq : (validateUpdateRequest body).2.parent_id with _ | _ | pid
  all_goals simp only [hq] at h ⊢
  all_goals
    first
      | exact absurd h (patchApply_status_ne_400 _ _ _ _)
      | skip
  all_goals split_ifs at h ⊢ with hz
  all_goals
    first
      | exact absurd h (patchApply_status_ne_400 _ _ _ _)
      | rfl
      | skip
  all_goals rcases hf : findTask store pid with _ | P
  all_goals simp only [hf] at h ⊢
  all_goals try split_ifs at h ⊢
  all_goals
    first
      | exact absurd h (patchApply_status_ne_400 _ _ _ _)
      | rfl

/-- C10: PATCH is atomic on rejection — every 400 response (field
validation, empty payload, self-parent, missing parent, or 2-node cycle) is
produced before the update call, so the store is unchanged. -/
theorem patch_400_is_atomic (store : List Task) (p : IdParam) (body : UpdateTaskRequest)
    (pf uf : Bool) (h : (patchHandler store p body pf uf).1.status = 400) :
    (patchHandler store p body pf uf).2 = store := by
  unfold patchHandler at h ⊢
  cases hv : validateId p with
  | none => rfl
  | some tid =>
    rw [hv] at h
    exact patchCore_400_store store tid body pf uf h

/-- Witness for C10: an empty update body draws a 400 and the store is
untouched. -/
theorem patch_400_is_atomic_witness :
    (patchHandler [] (.str "1") {} false false).2 = [] :=
  patch_400_is_atomic [] (.str "1") {} false false (by decide)

end TodoApi
